import Mathlib

/-!
Verification of the instruction-construction HTTP service ( src/main.rs ).

The active implementation (the uncommented second half of main.rs) is
embedded shallowly: every endpoint handler becomes a pure Lean function
from its request fields to an `ApiResponse`.  External collaborators —
the base-58 / base-64 codecs, the ed25519 signature primitives, the
associated-token-address derivation and the fixed program-id constants —
are supplied through an `Externals` structure, mirroring the trust boundary of
the design (they are consumed as opaque functions by the Rust code).
The SPL-token / system-program instruction encoders are modelled from
their documented fixed byte layouts.

Rust strings are modelled as `List Char`; bytes as `Fin 256`.
-/

/-- A byte, as produced by the codecs and instruction encoders. -/
abbrev Byte := Fin 256

/-- Rust str::trim, left part: drop leading whitespace. -/
def trimLeft (s : List Char) : List Char := s.dropWhile Char.isWhitespace

/-- Rust str::trim, right part: drop trailing whitespace. -/
def trimRight (s : List Char) : List Char := (s.reverse.dropWhile Char.isWhitespace).reverse

/-- Rust str::trim: drop leading and trailing whitespace. -/
def rustTrim (s : List Char) : List Char := trimRight (trimLeft s)

/-- Rust str::as_bytes: the UTF-8 bytes of the string. -/
def strBytes (s : List Char) : List Byte := (String.mk s).toUTF8.toList.map (fun u => u.val)

/-- A 64-byte ed25519 keypair: 32-byte secret half plus 32-byte public half
(solana_sdk Keypair). -/
structure KeyPair where
  secret : List Byte
  pub : List Byte
deriving DecidableEq

/-- Keypair::to_bytes / from_bytes byte order: secret half then public half. -/
def KeyPair.toBytes (kp : KeyPair) : List Byte := kp.secret ++ kp.pub

/-- The external collaborators of the service, per the design's trust
boundary: base-58 / base-64 alphabets, the fixed program ids, the
associated-token-address derivation, and the ed25519 primitives. -/
structure Externals where
  b58encode : List Byte → List Char
  b58decode : List Char → Option (List Byte)
  b64encode : List Byte → List Char
  b64decode : List Char → Option (List Byte)
  splTokenId : List Byte
  rentSysvarId : List Byte
  systemProgramId : List Byte
  ata : List Byte → List Byte → List Byte
  pubValid : List Byte → Bool
  derived : List Byte → List Byte
  sign : List Byte → KeyPair → List Byte
  verify : List Byte → List Byte → List Byte → Bool

/-- Pubkey::from_str: base-58 decode, then require exactly 32 bytes. -/
def pubkeyFromStr (ext : Externals) (s : List Char) : Option (List Byte) :=
  match ext.b58decode s with
  | some bs => if bs.length = 32 then some bs else none
  | none => none

/-- ed25519_dalek Keypair::from_bytes: split 64 bytes into secret and public
halves; fails unless the public half is a valid curve point. -/
def kpFromBytes (ext : Externals) (bs : List Byte) : Option KeyPair :=
  if bs.length = 64 ∧ ext.pubValid (bs.drop 32) = true then
    some ⟨bs.take 32, bs.drop 32⟩
  else none

/-- Signature::try_from on a byte slice: succeeds exactly on 64 bytes. -/
def sigFromBytes (bs : List Byte) : Option (List Byte) :=
  if bs.length = 64 then some bs else none

/-- solana_sdk AccountMeta. -/
structure AccountMeta where
  pubkey : List Byte
  is_signer : Bool
  is_writable : Bool
deriving DecidableEq

/-- solana_sdk Instruction: program id, ordered account list, payload bytes. -/
structure Instruction where
  program_id : List Byte
  accounts : List AccountMeta
  data : List Byte
deriving DecidableEq

/-- Little-endian encoding of the low 8 bytes of a u64 amount. -/
def le8 (n : Nat) : List Byte :=
  (List.range 8).map (fun i => ⟨n / 256 ^ i % 256, Nat.mod_lt _ (by decide)⟩)

/-- Tag byte of the SPL-token InitializeMint instruction. -/
def initializeMintTag : Byte := 0

/-- Tag byte of the SPL-token Transfer instruction. -/
def transferTag : Byte := 3

/-- Tag byte of the SPL-token MintTo instruction. -/
def mintToTag : Byte := 7

/-- Modelled from the spec: the spl_token initialize_mint encoder (an external
library function).  Checks the program id, then produces the 2-account list
(mint writable, rent sysvar readonly) with payload = tag byte, decimals byte,
mint-authority bytes, and a presence byte 0 or 1 (plus key) for the optional
freeze authority. -/
def initialize_mint (ext : Externals) (tokenProg mint mintAuthority : List Byte)
    (freezeAuthority : Option (List Byte)) (decimals : Byte) : Except String Instruction :=
  if tokenProg ≠ ext.splTokenId then .error "IncorrectProgramId"
  else .ok
    { program_id := tokenProg
      accounts := [⟨mint, false, true⟩, ⟨ext.rentSysvarId, false, false⟩]
      data := initializeMintTag :: decimals ::
        (mintAuthority ++ match freezeAuthority with
          | some pk => (1 : Byte) :: pk
          | none => [(0 : Byte)]) }

/-- Modelled from the spec: the spl_token mint_to encoder (an external library
function).  Checks the program id, then produces accounts (mint writable,
destination writable, authority readonly — a direct signer exactly when the
multisig signer list is empty, followed by the signers) with payload =
tag byte then the amount as little-endian 8 bytes. -/
def mint_to (ext : Externals) (tokenProg mint destination authority : List Byte)
    (signers : List (List Byte)) (amount : Nat) : Except String Instruction :=
  if tokenProg ≠ ext.splTokenId then .error "IncorrectProgramId"
  else .ok
    { program_id := tokenProg
      accounts := [⟨mint, false, true⟩, ⟨destination, false, true⟩,
                   ⟨authority, signers.isEmpty, false⟩] ++
                  signers.map (fun s => ⟨s, true, false⟩)
      data := mintToTag :: le8 amount }

/-- Modelled from the spec: the spl_token transfer encoder (an external library
function).  Checks the program id, then produces accounts (source writable,
destination writable, owner readonly — a direct signer exactly when the
multisig signer list is empty, followed by the signers) with payload =
tag byte then the amount as little-endian 8 bytes. -/
def spl_transfer (ext : Externals) (tokenProg source destination owner : List Byte)
    (signers : List (List Byte)) (amount : Nat) : Except String Instruction :=
  if tokenProg ≠ ext.splTokenId then .error "IncorrectProgramId"
  else .ok
    { program_id := tokenProg
      accounts := [⟨source, false, true⟩, ⟨destination, false, true⟩,
                   ⟨owner, signers.isEmpty, false⟩] ++
                  signers.map (fun s => ⟨s, true, false⟩)
      data := transferTag :: le8 amount }

/-- Modelled from the spec: the system-program transfer encoder (an external
library function, total).  Accounts: from (signer, writable), to (writable);
payload = the 4-byte little-endian enum tag 2 then the lamports amount as
little-endian 8 bytes. -/
def system_transfer (ext : Externals) (fromPk toPk : List Byte) (lamports : Nat) : Instruction :=
  { program_id := ext.systemProgramId
    accounts := [⟨fromPk, true, true⟩, ⟨toPk, false, true⟩]
    data := [(2 : Byte), 0, 0, 0] ++ le8 lamports }

/-- The uniform response envelope: success with data, or failure with a
human-readable message. -/
inductive ApiResponse (T : Type) where
  | success (data : T)
  | error (msg : String)
deriving DecidableEq

/-- Whether a response is the success envelope. -/
def ApiResponse.isSuccess {T : Type} : ApiResponse T → Bool
  | .success _ => true
  | .error _ => false

/-- Response account entry used by /token/create and /token/mint
(snake_case serde field names). -/
structure AccountMetaJson where
  pubkey : List Char
  is_signer : Bool
  is_writable : Bool
deriving DecidableEq

/-- Response body of /token/create and /token/mint. -/
structure TokenCreateResponse where
  program_id : List Char
  accounts : List AccountMetaJson
  instruction_data : List Char
deriving DecidableEq

/-- Response body of /message/sign. -/
structure SignMessageResponse where
  signature : List Char
  public_key : List Char
  message : List Char
deriving DecidableEq

/-- Response body of /message/verify. -/
structure VerifyMessageResponse where
  valid : Bool
  message : List Char
  pubkey : List Char
deriving DecidableEq

/-- Response body of /send/sol: accounts are plain address strings. -/
structure SendSolResponse where
  program_id : List Char
  accounts : List (List Char)
  instruction_data : List Char
deriving DecidableEq

/-- Response account entry of /send/token.  The serde attributes rename only
is_signer (to isSigner); is_writable keeps its snake_case name. -/
structure SendTokenAccount where
  pubkey : List Char
  is_signer : Bool
  is_writable : Bool
deriving DecidableEq

/-- Response body of /send/token. -/
structure SendTokenResponse where
  program_id : List Char
  accounts : List SendTokenAccount
  instruction_data : List Char
deriving DecidableEq

/-- Handler of /token/create: parse mint, then mint_authority; build the
initialize-mint instruction with no freeze authority; render it. -/
def create_token (ext : Externals) (mint_authority mint : List Char) (decimals : Byte) :
    ApiResponse TokenCreateResponse :=
  match pubkeyFromStr ext mint with
  | none => .error "Invalid mint pubkey"
  | some m =>
    match pubkeyFromStr ext mint_authority with
    | none => .error "Invalid mint_authority pubkey"
    | some a =>
      match initialize_mint ext ext.splTokenId m a none decimals with
      | .error e => .error ("Failed to build instruction: " ++ e)
      | .ok ins => .success
          { program_id := ext.b58encode ins.program_id
            accounts := ins.accounts.map
              (fun meta => ⟨ext.b58encode meta.pubkey, meta.is_signer, meta.is_writable⟩)
            instruction_data := ext.b64encode ins.data }

/-- Handler of /token/mint: parse mint, destination, authority; build the
mint-to instruction with an empty multisig signer list; render it. -/
def mint_token (ext : Externals) (mint destination authority : List Char) (amount : Nat) :
    ApiResponse TokenCreateResponse :=
  match pubkeyFromStr ext mint with
  | none => .error "Invalid mint pubkey"
  | some m =>
    match pubkeyFromStr ext destination with
    | none => .error "Invalid destination pubkey"
    | some d =>
      match pubkeyFromStr ext authority with
      | none => .error "Invalid authority pubkey"
      | some a =>
        match mint_to ext ext.splTokenId m d a [] amount with
        | .error e => .error ("Failed to build mint instruction: " ++ e)
        | .ok ins => .success
            { program_id := ext.b58encode ins.program_id
              accounts := ins.accounts.map
                (fun meta => ⟨ext.b58encode meta.pubkey, meta.is_signer, meta.is_writable⟩)
              instruction_data := ext.b64encode ins.data }

/-- Handler of /message/sign: reject empty-after-trim fields, decode the
base-58 secret (must be 64 bytes), rebuild the keypair, sign the message
bytes, and return the base-64 signature with the base-58 public key. -/
def sign_message (ext : Externals) (message secret : List Char) :
    ApiResponse SignMessageResponse :=
  if rustTrim message = [] ∨ rustTrim secret = [] then
    .error "Missing required fields"
  else
    match ext.b58decode secret with
    | some bytes =>
      if bytes.length = 64 then
        match kpFromBytes ext bytes with
        | some kp => .success
            { signature := ext.b64encode (ext.sign (strBytes message) kp)
              public_key := ext.b58encode kp.pub
              message := message }
        | none => .error "Failed to construct keypair"
      else .error "Invalid secret key"
    | none => .error "Invalid secret key"

/-- Handler of /message/verify: reject empty-after-trim fields, parse the
base-58 public key, decode the base-64 signature (must be 64 bytes), build
the signature value, and report the boolean verification outcome. -/
def verify_message (ext : Externals) (message signature pubkey : List Char) :
    ApiResponse VerifyMessageResponse :=
  if rustTrim message = [] ∨ rustTrim signature = [] ∨ rustTrim pubkey = [] then
    .error "Missing required fields"
  else
    match pubkeyFromStr ext pubkey with
    | none => .error "Invalid public key"
    | some pk =>
      match ext.b64decode signature with
      | some sb =>
        if sb.length = 64 then
          match sigFromBytes sb with
          | some s => .success
              { valid := ext.verify pk (strBytes message) s
                message := message
                pubkey := pubkey }
          | none => .error "Failed to parse signature"
        else .error "Invalid signature format"
      | none => .error "Invalid signature format"

/-- Handler of /send/sol: reject a zero amount first, then parse the two
addresses, reject identical sender and recipient, and render the
system-program transfer instruction. -/
def send_sol (ext : Externals) (fromAddr toAddr : List Char) (lamports : Nat) :
    ApiResponse SendSolResponse :=
  if lamports = 0 then .error "Amount must be greater than 0"
  else
    match pubkeyFromStr ext fromAddr with
    | none => .error "Invalid sender pubkey"
    | some f =>
      match pubkeyFromStr ext toAddr with
      | none => .error "Invalid recipient pubkey"
      | some t =>
        if f = t then .error "Sender and recipient cannot be the same"
        else
          let ins := system_transfer ext f t lamports
          .success
            { program_id := ext.b58encode ins.program_id
              accounts := ins.accounts.map (fun meta => ext.b58encode meta.pubkey)
              instruction_data := ext.b64encode ins.data }

/-- Handler of /send/token: reject a zero amount first, then parse mint,
owner, destination; reject identical owner and destination; derive the two
associated token accounts; render the SPL transfer instruction with an empty
multisig signer list. -/
def send_token (ext : Externals) (destination mint owner : List Char) (amount : Nat) :
    ApiResponse SendTokenResponse :=
  if amount = 0 then .error "Amount must be greater than 0"
  else
    match pubkeyFromStr ext mint with
    | none => .error "Invalid mint pubkey"
    | some m =>
      match pubkeyFromStr ext owner with
      | none => .error "Invalid owner pubkey"
      | some o =>
        match pubkeyFromStr ext destination with
        | none => .error "Invalid destination pubkey"
        | some dw =>
          if o = dw then .error "Owner and destination cannot be the same"
          else
            let sourceAta := ext.ata o m
            let destAta := ext.ata dw m
            match spl_transfer ext ext.splTokenId sourceAta destAta o [] amount with
            | .error e => .error ("Failed to build transfer instruction: " ++ e)
            | .ok ins => .success
                { program_id := ext.b58encode ins.program_id
                  accounts := ins.accounts.map
                    (fun meta => ⟨ext.b58encode meta.pubkey, meta.is_signer, meta.is_writable⟩)
                  instruction_data := ext.b64encode ins.data }

/-- A JSON value, for stating which keys serde emits. -/
inductive Json where
  | str (s : List Char)
  | jbool (b : Bool)
  | arr (xs : List Json)
  | obj (fields : List (String × Json))

/-- The keys of a JSON object, in emission order. -/
def Json.keys : Json → List String
  | .obj fs => fs.map Prod.fst
  | _ => []

/-- serde serialization of a /send/token account entry: the rename attribute
covers only is_signer, so is_writable is emitted under its snake_case name. -/
def SendTokenAccount.toJson (a : SendTokenAccount) : Json :=
  Json.obj [("pubkey", Json.str a.pubkey),
            ("isSigner", Json.jbool a.is_signer),
            ("is_writable", Json.jbool a.is_writable)]

/-- All account entries of a successful /send/token response are serialized
with exactly the given JSON keys (vacuous on the error envelope). -/
def accountsKeysAre (r : ApiResponse SendTokenResponse) (ks : List String) : Prop :=
  match r with
  | .success d => ∀ a ∈ d.accounts, (SendTokenAccount.toJson a).keys = ks
  | .error _ => True

/-- The serialized key lists of the account entries of a /send/token
response. -/
def sendTokenAccountKeys (r : ApiResponse SendTokenResponse) : List (List String) :=
  match r with
  | .success d => d.accounts.map (fun a => (SendTokenAccount.toJson a).keys)
  | .error _ => []

/-- The decoded instruction payload of a successful instruction-builder
response. -/
def tokenPayload (ext : Externals) : ApiResponse TokenCreateResponse → Option (List Byte)
  | .success d => ext.b64decode d.instruction_data
  | .error _ => none

/-- The contract of the external collaborators, as documented by the design:
the codecs round-trip and their alphabets contain no whitespace, signatures
are 64 bytes, a public key derived from a secret is a valid curve point, and
verification accepts a signature produced with the matching keypair. -/
structure ExternalsLaws (ext : Externals) : Prop where
  b58_rt : ∀ bs, ext.b58decode (ext.b58encode bs) = some bs
  b64_rt : ∀ bs, ext.b64decode (ext.b64encode bs) = some bs
  b58_trim : ∀ bs, bs ≠ [] → rustTrim (ext.b58encode bs) ≠ []
  b64_trim : ∀ bs, bs ≠ [] → rustTrim (ext.b64encode bs) ≠ []
  sign_len : ∀ m kp, (ext.sign m kp).length = 64
  derived_valid : ∀ s, ext.pubValid (ext.derived s) = true
  sign_verify : ∀ m kp, kp.pub = ext.derived kp.secret →
    ext.verify kp.pub m (ext.sign m kp) = true

/-- A concrete character for a byte: codepoint 256 + byte value, avoiding the
whitespace range. -/
def toyChar (b : Byte) : Char := Char.ofNat (b.val + 256)

/-- A concrete executable codec: one character per byte. -/
def toyEncode (bs : List Byte) : List Char := bs.map toyChar

/-- Inverse of toyChar. -/
def toyDecodeChar (c : Char) : Option Byte :=
  if h : 256 ≤ c.toNat ∧ c.toNat < 512 then some ⟨c.toNat - 256, by omega⟩ else none

/-- Inverse of toyEncode, character by character. -/
def toyDecode : List Char → Option (List Byte)
  | [] => some []
  | c :: t =>
    match toyDecodeChar c, toyDecode t with
    | some b, some bs => some (b :: bs)
    | _, _ => none

/-- A concrete public-key derivation: pad the secret to 32 bytes. -/
def toyDerived (s : List Byte) : List Byte := (s ++ List.replicate 32 0).take 32

/-- A concrete signing function producing 64 bytes from public key and
message. -/
def toySign (m : List Byte) (kp : KeyPair) : List Byte :=
  (kp.pub ++ m ++ List.replicate 64 0).take 64

/-- The matching concrete verifier. -/
def toyVerify (pk m sg : List Byte) : Bool :=
  sg == (pk ++ m ++ List.replicate 64 0).take 64

/-- A concrete instantiation of the external collaborators, used to evaluate
the endpoints on closed inputs. -/
def toyExternals : Externals :=
  { b58encode := toyEncode
    b58decode := toyDecode
    b64encode := toyEncode
    b64decode := toyDecode
    splTokenId := List.replicate 32 7
    rentSysvarId := List.replicate 32 8
    systemProgramId := List.replicate 32 9
    ata := fun w _ => w
    pubValid := fun _ => true
    derived := toyDerived
    sign := toySign
    verify := toyVerify }

/-- A concrete 32-byte address. -/
def addrA : List Byte := List.replicate 32 1

/-- A second concrete 32-byte address. -/
def addrB : List Byte := List.replicate 32 2

/-- A third concrete 32-byte address. -/
def addrC : List Byte := List.replicate 32 3

/-- Textual form of addrA. -/
def strA : List Char := toyEncode addrA

/-- Textual form of addrB. -/
def strB : List Char := toyEncode addrB

/-- Textual form of addrC. -/
def strC : List Char := toyEncode addrC

/-- A concrete keypair whose public half is derived from its secret half. -/
def kpW : KeyPair := ⟨List.replicate 32 4, toyDerived (List.replicate 32 4)⟩

/-- A concrete non-empty message. -/
def msgW : List Char := ['h', 'e', 'l', 'l', 'o']

/-- A concrete 64-byte signature value and its textual form. -/
def sigBytesW : List Byte := List.replicate 64 5

/-- Textual (base-64 position) form of sigBytesW. -/
def sigW : List Char := toyEncode sigBytesW

theorem toyChar_toNat (b : Byte) : (toyChar b).toNat = b.val + 256 := by
  have hb := b.isLt
  have hv : (b.val + 256).isValidChar := Or.inl (by omega)
  simp only [toyChar, Char.ofNat]
  rw [dif_pos hv]
  rfl

theorem toyChar_ne (b : Byte) (c : Char) (hc : c.toNat < 256) : toyChar b ≠ c := by
  intro e
  have h := toyChar_toNat b
  have hb := b.isLt
  rw [e] at h
  omega

theorem toyChar_not_whitespace (b : Byte) : (toyChar b).isWhitespace = false := by
  have h1 := toyChar_ne b ' ' (by decide)
  have h2 := toyChar_ne b '\t' (by decide)
  have h3 := toyChar_ne b '\r' (by decide)
  have h4 := toyChar_ne b '\n' (by decide)
  simp [Char.isWhitespace, h1, h2, h3, h4]

theorem dropWhile_no_ws (s : List Char) (h : ∀ c ∈ s, Char.isWhitespace c = false) :
    s.dropWhile Char.isWhitespace = s := by
  cases s with
  | nil => rfl
  | cons c t =>
    rw [List.dropWhile_cons]
    simp [h c (List.mem_cons_self c t)]

theorem rustTrim_no_ws (s : List Char) (h : ∀ c ∈ s, Char.isWhitespace c = false) :
    rustTrim s = s := by
  unfold rustTrim trimLeft trimRight
  rw [dropWhile_no_ws s h,
      dropWhile_no_ws s.reverse (fun c hc => h c (List.mem_reverse.mp hc)),
      List.reverse_reverse]

theorem toy_trim (bs : List Byte) (h : bs ≠ []) : rustTrim (toyEncode bs) ≠ [] := by
  rw [rustTrim_no_ws]
  · simp [toyEncode, h]
  · intro c hc
    obtain ⟨b, _, rfl⟩ := List.mem_map.mp hc
    exact toyChar_not_whitespace b

theorem toyDecodeChar_toyChar (b : Byte) : toyDecodeChar (toyChar b) = some b := by
  have h := toyChar_toNat b
  have hb := b.isLt
  simp only [toyDecodeChar, h]
  rw [dif_pos (by omega)]
  simp only [Option.some.injEq, Fin.ext_iff]
  omega

theorem toy_rt (bs : List Byte) : toyDecode (toyEncode bs) = some bs := by
  induction bs with
  | nil => rfl
  | cons b t ih =>
    simp only [toyEncode, List.map_cons, toyDecode] at ih ⊢
    rw [toyDecodeChar_toyChar, ih]

theorem toySign_len (m : List Byte) (kp : KeyPair) : (toySign m kp).length = 64 := by
  simp [toySign]
  omega

theorem toy_sign_verify (m : List Byte) (kp : KeyPair) :
    toyVerify kp.pub m (toySign m kp) = true := by
  simp [toyVerify, toySign]

theorem toyExternals_laws : ExternalsLaws toyExternals :=
  { b58_rt := toy_rt
    b64_rt := toy_rt
    b58_trim := toy_trim
    b64_trim := toy_trim
    sign_len := toySign_len
    derived_valid := fun _ => rfl
    sign_verify := fun m kp _ => toy_sign_verify m kp }

/-- C1 counterexample: a /send/sol request whose from and to fields are both
empty and whose amount is zero is rejected with the amount error, not the
missing-field error. -/
theorem C1_counterexample :
    send_sol toyExternals [] [] 0 = ApiResponse.error "Amount must be greater than 0" ∧
    send_sol toyExternals [] [] 0 ≠ ApiResponse.error "Missing required fields" := by
  decide

/-- C1 (amended): validation runs in a fixed order that short-circuits on the
first failure, but on /send/sol and /send/token the zero-amount check runs
before any text field is examined, so a request with both an empty required
field and a zero amount is rejected with the amount error; only /message/sign
and /message/verify check missing/empty text fields first. -/
theorem C1_validation_order :
    (∀ (ext : Externals) (fromAddr toAddr : List Char),
        send_sol ext fromAddr toAddr 0 = .error "Amount must be greater than 0") ∧
    (∀ (ext : Externals) (destination mint owner : List Char),
        send_token ext destination mint owner 0 = .error "Amount must be greater than 0") ∧
    (∀ (ext : Externals) (message secret : List Char), rustTrim message = [] →
        sign_message ext message secret = .error "Missing required fields") ∧
    (∀ (ext : Externals) (message signature pubkey : List Char), rustTrim message = [] →
        verify_message ext message signature pubkey = .error "Missing required fields") := by
  refine ⟨fun ext f t => ?_, fun ext d m o => ?_, fun ext m s h => ?_, fun ext m s p h => ?_⟩
  · simp [send_sol]
  · simp [send_token]
  · simp [sign_message, h]
  · simp [verify_message, h]

/-- C1 witness: the amended ordering facts evaluated on concrete requests. -/
theorem C1_validation_order_witness :
    sign_message toyExternals [] strA = ApiResponse.error "Missing required fields" ∧
    verify_message toyExternals [] strA strB = ApiResponse.error "Missing required fields" :=
  ⟨C1_validation_order.2.2.1 toyExternals [] strA rfl,
   C1_validation_order.2.2.2 toyExternals [] strA strB rfl⟩

/-- C2 counterexample: a successful /send/token response serializes each
account entry with keys pubkey, isSigner, is_writable — not isWritable. -/
theorem C2_counterexample :
    (send_token toyExternals strA strB strC 5).isSuccess = true ∧
    sendTokenAccountKeys (send_token toyExternals strA strB strC 5) =
      [["pubkey", "isSigner", "is_writable"], ["pubkey", "isSigner", "is_writable"],
       ["pubkey", "isSigner", "is_writable"]] ∧
    (["pubkey", "isSigner", "is_writable"] : List String) ≠
      ["pubkey", "isSigner", "isWritable"] := by
  decide

/-- C2 (amended): for every successful /send/token request, each entry of the
accounts array in the response is serialized with exactly the JSON keys
pubkey, isSigner, and is_writable (the writable flag keeps its snake_case
name because the serde rename attribute covers only is_signer). -/
theorem C2_send_token_keys :
    ∀ (ext : Externals) (destination mint owner : List Char) (amount : Nat),
      accountsKeysAre (send_token ext destination mint owner amount)
        ["pubkey", "isSigner", "is_writable"] := by
  intro ext d m o amt
  cases h : send_token ext d m o amt with
  | success r => intro a _; rfl
  | error e => trivial

/-- C4: a /send/sol request with a positive amount whose from and to decode to
the same 32-byte key fails with the identical-parties error, and likewise a
/send/token request whose owner and destination decode to the same key. -/
theorem C4_same_address :
    (∀ (ext : Externals) (fromAddr toAddr : List Char) (lamports : Nat) (A : List Byte),
        lamports ≠ 0 → pubkeyFromStr ext fromAddr = some A →
        pubkeyFromStr ext toAddr = some A →
        send_sol ext fromAddr toAddr lamports =
          .error "Sender and recipient cannot be the same") ∧
    (∀ (ext : Externals) (destination mint owner : List Char) (amount : Nat)
        (M W : List Byte),
        amount ≠ 0 → pubkeyFromStr ext mint = some M →
        pubkeyFromStr ext owner = some W → pubkeyFromStr ext destination = some W →
        send_token ext destination mint owner amount =
          .error "Owner and destination cannot be the same") := by
  constructor
  · intro ext f t lam A hl h1 h2
    simp [send_sol, hl, h1, h2]
  · intro ext d m o amt M W ha h1 h2 h3
    simp [send_token, ha, h1, h2, h3]

/-- C4 witness: concrete same-address /send/sol and /send/token requests. -/
theorem C4_same_address_witness :
    send_sol toyExternals strA strA 5 =
      ApiResponse.error "Sender and recipient cannot be the same" ∧
    send_token toyExternals strA strB strA 5 =
      ApiResponse.error "Owner and destination cannot be the same" :=
  ⟨C4_same_address.1 toyExternals strA strA 5 addrA (by decide) (by decide) (by decide),
   C4_same_address.2 toyExternals strA strB strA 5 addrB addrA (by decide) (by decide)
     (by decide) (by decide)⟩

/-- C7: a /message/sign request whose message or secret trims to empty, and a
/message/verify request whose message, signature or pubkey trims to empty,
fail with the missing-required-fields error for every choice of external
decoders — that is, before any decoding is attempted. -/
theorem C7_missing_fields :
    (∀ (ext : Externals) (message secret : List Char),
        rustTrim message = [] ∨ rustTrim secret = [] →
        sign_message ext message secret = .error "Missing required fields") ∧
    (∀ (ext : Externals) (message signature pubkey : List Char),
        rustTrim message = [] ∨ rustTrim signature = [] ∨ rustTrim pubkey = [] →
        verify_message ext message signature pubkey =
          .error "Missing required fields") := by
  constructor
  · intro ext m s h
    unfold sign_message
    rw [if_pos h]
  · intro ext m s p h
    unfold verify_message
    rw [if_pos h]

/-- C7 witness: whitespace-only fields on concrete requests. -/
theorem C7_missing_fields_witness :
    sign_message toyExternals [' '] strA = ApiResponse.error "Missing required fields" ∧
    verify_message toyExternals msgW [' '] strA =
      ApiResponse.error "Missing required fields" :=
  ⟨C7_missing_fields.1 toyExternals [' '] strA (by decide),
   C7_missing_fields.2 toyExternals msgW [' '] strA (by decide)⟩

/-- C9: every instruction-builder endpoint is deterministic — two calls with
identical inputs produce equal responses (each handler is a pure function of
its request and the fixed external collaborators). -/
theorem C9_idempotent :
    ∀ (ext : Externals) (ma mi dest auth fromAddr toAddr dst own : List Char)
      (dec : Byte) (amount : Nat),
      create_token ext ma mi dec = create_token ext ma mi dec ∧
      mint_token ext mi dest auth amount = mint_token ext mi dest auth amount ∧
      send_sol ext fromAddr toAddr amount = send_sol ext fromAddr toAddr amount ∧
      send_token ext dst mi own amount = send_token ext dst mi own amount := by
  intros
  exact ⟨rfl, rfl, rfl, rfl⟩

/-- C3: a /message/verify request with non-empty-after-trim fields, a pubkey
decoding to 32 bytes, and a valid base-64 signature decoding to 64 bytes
always yields the success envelope carrying the boolean verification
outcome — a cryptographic mismatch gives valid false, never an error. -/
theorem C3_verify_total :
    ∀ (ext : Externals) (message signature pubkey : List Char) (pk sb : List Byte),
      rustTrim message ≠ [] → rustTrim signature ≠ [] → rustTrim pubkey ≠ [] →
      pubkeyFromStr ext pubkey = some pk →
      ext.b64decode signature = some sb → sb.length = 64 →
      verify_message ext message signature pubkey =
        .success ⟨ext.verify pk (strBytes message) sb, message, pubkey⟩ := by
  intro ext m s p pk sb h1 h2 h3 h4 h5 h6
  simp [verify_message, sigFromBytes, h1, h2, h3, h4, h5, h6]

/-- C3 witness: concrete request; the toy verifier reports a mismatch, and the
response is still the success envelope with a boolean valid field. -/
theorem C3_verify_total_witness :
    verify_message toyExternals msgW sigW strA =
      ApiResponse.success ⟨toyExternals.verify addrA (strBytes msgW) sigBytesW, msgW, strA⟩ :=
  C3_verify_total toyExternals msgW sigW strA addrA sigBytesW (by decide) (by decide)
    (by decide) (by decide) (by decide) (by decide)

/-- C5: a /token/create request with two well-formed addresses and any byte
decimals succeeds, and its decoded instruction payload is the fixed
initialize-mint tag, then the decimals byte, then the mint-authority bytes,
then the freeze-authority presence flag encoded as 0 (not present). -/
theorem C5_create_token_payload :
    ∀ (ext : Externals) (mintAuthority mint : List Char) (decimals : Byte)
      (a m : List Byte),
      (∀ bs, ext.b64decode (ext.b64encode bs) = some bs) →
      pubkeyFromStr ext mint = some m →
      pubkeyFromStr ext mintAuthority = some a →
      (create_token ext mintAuthority mint decimals).isSuccess = true ∧
      tokenPayload ext (create_token ext mintAuthority mint decimals) =
        some (initializeMintTag :: decimals :: (a ++ [(0 : Byte)])) := by
  intro ext ma mi dec a m hrt h1 h2
  simp [create_token, h1, h2, initialize_mint, tokenPayload, ApiResponse.isSuccess, hrt]

/-- C5 witness: decimals 6 with concrete addresses. -/
theorem C5_create_token_payload_witness :
    (create_token toyExternals strA strB 6).isSuccess = true ∧
    tokenPayload toyExternals (create_token toyExternals strA strB 6) =
      some (initializeMintTag :: (6 : Byte) :: (addrA ++ [(0 : Byte)])) :=
  C5_create_token_payload toyExternals strA strB 6 addrA addrB
    toyExternals_laws.b64_rt (by decide) (by decide)

/-- C6: a /token/mint request with three well-formed addresses produces the
mint-to account list in the order mint (writable), destination (writable),
authority (readonly direct signer, because the multisig signer set is always
passed empty), and a payload of the mint-to tag followed by the amount as
little-endian 8 bytes. -/
theorem C6_mint_token_shape :
    ∀ (ext : Externals) (mint destination authority : List Char) (amount : Nat)
      (m d a : List Byte),
      (∀ bs, ext.b64decode (ext.b64encode bs) = some bs) →
      pubkeyFromStr ext mint = some m →
      pubkeyFromStr ext destination = some d →
      pubkeyFromStr ext authority = some a →
      mint_token ext mint destination authority amount =
        .success ⟨ext.b58encode ext.splTokenId,
          [⟨ext.b58encode m, false, true⟩, ⟨ext.b58encode d, false, true⟩,
           ⟨ext.b58encode a, true, false⟩],
          ext.b64encode (mintToTag :: le8 amount)⟩ ∧
      tokenPayload ext (mint_token ext mint destination authority amount) =
        some (mintToTag :: le8 amount) := by
  intro ext mi de au amt m d a hrt h1 h2 h3
  have hm : mint_token ext mi de au amt =
      .success ⟨ext.b58encode ext.splTokenId,
        [⟨ext.b58encode m, false, true⟩, ⟨ext.b58encode d, false, true⟩,
         ⟨ext.b58encode a, true, false⟩],
        ext.b64encode (mintToTag :: le8 amt)⟩ := by
    simp [mint_token, h1, h2, h3, mint_to]
  exact ⟨hm, by rw [hm]; simp [tokenPayload, hrt]⟩

/-- C6 witness: concrete mint-to request with amount 9. -/
theorem C6_mint_token_shape_witness :
    mint_token toyExternals strA strB strC 9 =
      ApiResponse.success ⟨toyExternals.b58encode toyExternals.splTokenId,
        [⟨toyExternals.b58encode addrA, false, true⟩,
         ⟨toyExternals.b58encode addrB, false, true⟩,
         ⟨toyExternals.b58encode addrC, true, false⟩],
        toyExternals.b64encode (mintToTag :: le8 9)⟩ ∧
    tokenPayload toyExternals (mint_token toyExternals strA strB strC 9) =
      some (mintToTag :: le8 9) :=
  C6_mint_token_shape toyExternals strA strB strC 9 addrA addrB addrC
    toyExternals_laws.b64_rt (by decide) (by decide) (by decide)

/-- C10: /token/mint performs no amount-positivity and no missing-field check:
with three well-formed addresses and amount 0 it succeeds, and with an empty
mint field it fails with the invalid-pubkey error rather than a missing-field
error — unlike /send/sol and /send/token, which reject a zero amount. -/
theorem C10_mint_zero_amount :
    (∀ (ext : Externals) (mint destination authority : List Char) (m d a : List Byte),
        pubkeyFromStr ext mint = some m → pubkeyFromStr ext destination = some d →
        pubkeyFromStr ext authority = some a →
        (mint_token ext mint destination authority 0).isSuccess = true) ∧
    (∀ (ext : Externals) (destination authority : List Char),
        pubkeyFromStr ext [] = none →
        mint_token ext [] destination authority 0 = .error "Invalid mint pubkey") ∧
    (∀ (ext : Externals) (fromAddr toAddr : List Char),
        send_sol ext fromAddr toAddr 0 = .error "Amount must be greater than 0") ∧
    (∀ (ext : Externals) (destination mint owner : List Char),
        send_token ext destination mint owner 0 = .error "Amount must be greater than 0") := by
  refine ⟨fun ext mi de au m d a h1 h2 h3 => ?_, fun ext de au h => ?_,
    fun ext f t => ?_, fun ext d m o => ?_⟩
  · simp [mint_token, h1, h2, h3, mint_to, ApiResponse.isSuccess]
  · simp [mint_token, h]
  · simp [send_sol]
  · simp [send_token]

/-- C10 witness: /token/mint succeeds on amount 0 where the transfer
operations reject it, and an empty mint field gives the invalid-pubkey
error. -/
theorem C10_mint_zero_amount_witness :
    (mint_token toyExternals strA strB strC 0).isSuccess = true ∧
    mint_token toyExternals [] strB strC 0 = ApiResponse.error "Invalid mint pubkey" ∧
    send_sol toyExternals strA strB 0 = ApiResponse.error "Amount must be greater than 0" ∧
    send_token toyExternals strA strB strC 0 =
      ApiResponse.error "Amount must be greater than 0" :=
  ⟨C10_mint_zero_amount.1 toyExternals strA strB strC addrA addrB addrC
     (by decide) (by decide) (by decide),
   C10_mint_zero_amount.2.1 toyExternals strB strC (by decide),
   C10_mint_zero_amount.2.2.1 toyExternals strA strB,
   C10_mint_zero_amount.2.2.2 toyExternals strA strB strC⟩

/-- C8: given the documented contract of the external codecs and ed25519
primitives, for every keypair whose public half is derived from its secret
half (as every freshly generated keypair is) and every message that is
non-empty after trimming, signing through /message/sign and then verifying
the returned signature and public key through /message/verify yields
valid true. -/
theorem C8_round_trip :
    ∀ (ext : Externals) (kp : KeyPair) (message : List Char),
      ExternalsLaws ext →
      rustTrim message ≠ [] →
      kp.secret.length = 32 → kp.pub.length = 32 →
      kp.pub = ext.derived kp.secret →
      sign_message ext message (ext.b58encode kp.toBytes) =
        .success ⟨ext.b64encode (ext.sign (strBytes message) kp),
                  ext.b58encode kp.pub, message⟩ ∧
      verify_message ext message (ext.b64encode (ext.sign (strBytes message) kp))
          (ext.b58encode kp.pub) =
        .success ⟨true, message, ext.b58encode kp.pub⟩ := by
  intro ext kp msg hl hm hs hp hd
  have hbytes : kp.toBytes.length = 64 := by
    simp [KeyPair.toBytes, hs, hp]
  have hnil : kp.toBytes ≠ [] := by
    intro e; rw [e] at hbytes; simp at hbytes
  have hsec : rustTrim (ext.b58encode kp.toBytes) ≠ [] := hl.b58_trim _ hnil
  have hdec : ext.b58decode (ext.b58encode kp.toBytes) = some kp.toBytes := hl.b58_rt _
  have hdrop : kp.toBytes.drop 32 = kp.pub := List.drop_left' hs
  have htake : kp.toBytes.take 32 = kp.secret := List.take_left' hs
  have hkp : kpFromBytes ext kp.toBytes = some kp := by
    unfold kpFromBytes
    rw [if_pos ⟨hbytes, by rw [hdrop, hd]; exact hl.derived_valid _⟩, htake, hdrop]
  have hsig_len : (ext.sign (strBytes msg) kp).length = 64 := hl.sign_len _ kp
  have hsig_nil : ext.sign (strBytes msg) kp ≠ [] := by
    intro e; rw [e] at hsig_len; simp at hsig_len
  have hpub_nil : kp.pub ≠ [] := by
    intro e; rw [e] at hp; simp at hp
  have h2 : rustTrim (ext.b64encode (ext.sign (strBytes msg) kp)) ≠ [] :=
    hl.b64_trim _ hsig_nil
  have h3 : rustTrim (ext.b58encode kp.pub) ≠ [] := hl.b58_trim _ hpub_nil
  have h4 : pubkeyFromStr ext (ext.b58encode kp.pub) = some kp.pub := by
    simp [pubkeyFromStr, hl.b58_rt, hp]
  have h5 : ext.b64decode (ext.b64encode (ext.sign (strBytes msg) kp)) =
      some (ext.sign (strBytes msg) kp) := hl.b64_rt _
  have hver : ext.verify kp.pub (strBytes msg) (ext.sign (strBytes msg) kp) = true :=
    hl.sign_verify _ kp hd
  constructor
  · simp [sign_message, hm, hsec, hdec, hbytes, hkp]
  · simp [verify_message, sigFromBytes, hm, h2, h3, h4, h5, hsig_len, hver]

/-- C8 witness: the round trip on a concrete derived keypair and concrete
message. -/
theorem C8_round_trip_witness :
    sign_message toyExternals msgW (toyExternals.b58encode kpW.toBytes) =
      ApiResponse.success ⟨toyExternals.b64encode (toyExternals.sign (strBytes msgW) kpW),
                           toyExternals.b58encode kpW.pub, msgW⟩ ∧
    verify_message toyExternals msgW
        (toyExternals.b64encode (toyExternals.sign (strBytes msgW) kpW))
        (toyExternals.b58encode kpW.pub) =
      ApiResponse.success ⟨true, msgW, toyExternals.b58encode kpW.pub⟩ :=
  C8_round_trip toyExternals kpW msgW toyExternals_laws (by decide) (by decide)
    (by decide) (by decide)
